import Mathlib

/-!
Shallow embedding of the RPG persuasion-adventure engine
(src/src/models/schemas.py, src/src/models/game_state.py,
src/src/services/gpt_client.py, src/src/controllers/game_controller.py)
together with proofs of the spec's claims about it.

Python `str` is modelled by Lean `String` (ASCII-faithful: Python
`str.lower`/`str.strip` are modelled by `String.toLower`/`String.trim`,
which agree on ASCII text); Python `int` by `Int` (both unbounded);
Python `dict` by an insertion-ordered association list.
-/

namespace RPG

/-- Python `str.lower()` on a character (ASCII fragment). -/
def pyLowerChar (c : Char) : Char :=
  if 'A' ≤ c ∧ c ≤ 'Z' then Char.ofNat (c.toNat + 32) else c

/-- Python `str.upper()` on a character (ASCII fragment). -/
def pyUpperChar (c : Char) : Char :=
  if 'a' ≤ c ∧ c ≤ 'z' then Char.ofNat (c.toNat - 32) else c

/-- Python `str.lower()` (ASCII fragment). -/
def pyLower (s : String) : String :=
  String.mk (s.data.map pyLowerChar)

/-- Python whitespace as recognised by `str.strip()` (ASCII fragment). -/
def pyIsSpace (c : Char) : Bool :=
  c = ' ' ∨ c = '\t' ∨ c = '\n' ∨ c = '\r' ∨ c = '\x0b' ∨ c = '\x0c'

/-- Python `str.strip()` with no argument (ASCII fragment). -/
def pyStripChars (l : List Char) : List Char :=
  ((l.dropWhile pyIsSpace).reverse.dropWhile pyIsSpace).reverse

/-- Python `str.strip()` on strings. -/
def pyStrip (s : String) : String :=
  String.mk (pyStripChars s.data)

/-- Python `str.capitalize()`: first character upper-cased, the rest
lower-cased (ASCII fragment). -/
def pyCapitalize (s : String) : String :=
  match s.data with
  | [] => ""
  | c :: rest => String.mk (pyUpperChar c :: rest.map pyLowerChar)

/-! ### src/src/models/schemas.py -/

/-- Embeds `NPCSchema` (pydantic model): fields with their declared defaults. -/
structure NPCSchema where
  name : String
  description : String := ""
  personality : String := ""
  resistance : Int := 5
  relationship : Int := 0
deriving Repr, DecidableEq

/-- A raw NPC payload as decoded from JSON, before pydantic validation:
each optional field is either absent (`none`) or present. -/
structure NPCPayload where
  name : String
  description : Option String := none
  personality : Option String := none
  resistance : Option Int := none
  relationship : Option Int := none
deriving Repr, DecidableEq

/-- Pydantic validation of `NPCSchema`: applies the declared defaults and
enforces `resistance: int = Field(default=5, ge=0)`; `relationship` is an
unconstrained int. Returns the validation error message on failure. -/
def NPCSchema.validate (p : NPCPayload) : Except String NPCSchema :=
  let r := p.resistance.getD 5
  if r < 0 then
    Except.error "Input should be greater than or equal to 0"
  else
    Except.ok
      { name := p.name
        description := p.description.getD ""
        personality := p.personality.getD ""
        resistance := r
        relationship := p.relationship.getD 0 }

/-- Embeds `NPCSchema.model_dump()`: every field is present in the dumped dict. -/
def NPCSchema.model_dump (n : NPCSchema) : NPCPayload :=
  { name := n.name
    description := some n.description
    personality := some n.personality
    resistance := some n.resistance
    relationship := some n.relationship }

/-- Embeds `WorldSetupSchema` (pydantic model). -/
structure WorldSetupSchema where
  opening_scene : String
  initial_problem : String := "Convince someone to listen."
  npcs : List NPCSchema := []
deriving Repr, DecidableEq

/-- Embeds `BranchSchema` (pydantic model). -/
structure BranchSchema where
  title : String
  description : String := ""
deriving Repr, DecidableEq

/-- Embeds `TurnResolutionSchema` (pydantic model). -/
structure TurnResolutionSchema where
  active_npc : NPCSchema
  npc_response : String
  outcome_type : String
  outcome_summary : String
  npc_resistance_change : Int := 0
  npc_relationship_change : Int := 0
  next_problem : String
  branches : List BranchSchema := []
  is_game_over : Bool := false
  ending_summary : Option String := none
deriving Repr, DecidableEq

/-- Embeds `TurnResolutionSchema.normalised_outcome`. -/
def TurnResolutionSchema.normalised_outcome (r : TurnResolutionSchema) : String :=
  let outcome := pyLower (pyStrip r.outcome_type)
  if outcome = "success" ∨ outcome = "failure" ∨ outcome = "alternative" then
    pyCapitalize outcome
  else
    "Alternative"

/-! ### src/src/models/game_state.py -/

/-- Embeds `NPCState` (dataclass). -/
structure NPCState where
  name : String
  description : String
  personality : String
  resistance : Int
  relationship : Int
deriving Repr, DecidableEq

/-- Embeds `NPCState.adjust`: resistance is clamped at zero, relationship is not. -/
def NPCState.adjust (npc : NPCState) (resistance_delta relationship_delta : Int) : NPCState :=
  { npc with
      resistance := max 0 (npc.resistance + resistance_delta)
      relationship := npc.relationship + relationship_delta }

/-- Embeds `NPCState.from_schema`. -/
def NPCState.from_schema (schema : NPCSchema) : NPCState :=
  { name := schema.name
    description := schema.description
    personality := schema.personality
    resistance := schema.resistance
    relationship := schema.relationship }

/-- Embeds `TurnRecord` (dataclass). Branch dicts are `BranchSchema` dumps. -/
structure TurnRecord where
  turn_number : Nat
  npc_name : String
  dilemma : String
  player_message : String
  npc_response : String
  outcome_type : String
  outcome_summary : String
  resistance_shift : Int
  relationship_shift : Int
  branches : List BranchSchema
deriving Repr, DecidableEq

/-- Python `dict.get`: first binding of the key in the insertion-ordered
association list. -/
def dictGet (k : String) : List (String × NPCState) → Option NPCState
  | [] => none
  | (k', v) :: rest => if k' = k then some v else dictGet k rest

/-- Python `d[k] = v`: overwrite in place when the key exists (keeping its
insertion position), otherwise append at the end. -/
def dictSet (k : String) (v : NPCState) : List (String × NPCState) → List (String × NPCState)
  | [] => [(k, v)]
  | (k', v') :: rest => if k' = k then (k', v) :: rest else (k', v') :: dictSet k v rest

/-- Embeds `GameState` (dataclass). -/
structure GameState where
  world_setting : String
  opening_scene : String
  current_problem : String
  npcs : List (String × NPCState)
  turn_history : List TurnRecord := []
  total_successes : Nat := 0
  total_failures : Nat := 0
  pending_branches : List BranchSchema := []
deriving Repr, DecidableEq

/-- Embeds `GameState.record_turn`: builds the record, appends it to the history,
bumps the outcome counters, and publishes the branches. Returns the record
with the updated state. -/
def GameState.record_turn (s : GameState) (npc_name dilemma player_message npc_response
    outcome_type outcome_summary : String) (resistance_shift relationship_shift : Int)
    (branches : List BranchSchema) : TurnRecord × GameState :=
  let record : TurnRecord :=
    { turn_number := s.turn_history.length + 1
      npc_name := npc_name
      dilemma := dilemma
      player_message := player_message
      npc_response := npc_response
      outcome_type := outcome_type
      outcome_summary := outcome_summary
      resistance_shift := resistance_shift
      relationship_shift := relationship_shift
      branches := branches }
  let s := { s with turn_history := s.turn_history ++ [record] }
  let s :=
    if pyLower outcome_type = "success" then
      { s with total_successes := s.total_successes + 1 }
    else if pyLower outcome_type = "failure" then
      { s with total_failures := s.total_failures + 1 }
    else s
  (record, { s with pending_branches := branches })

/-- Embeds `GameState.update_npc`: adjust the named NPC when present, otherwise do
nothing (`self.npcs.get` returns `None`, which is falsy). -/
def GameState.update_npc (s : GameState) (npc_name : String)
    (resistance_delta relationship_delta : Int) : GameState :=
  match dictGet npc_name s.npcs with
  | none => s
  | some npc =>
      { s with npcs := dictSet npc_name (npc.adjust resistance_delta relationship_delta) s.npcs }

/-- Embeds `GameState.ensure_npc`: return the stored NPC when the payload's name is
known, otherwise build one from the payload (resistance defaulting to 5,
relationship to 0) and insert it. -/
def GameState.ensure_npc (s : GameState) (p : NPCPayload) : NPCState × GameState :=
  match dictGet p.name s.npcs with
  | some npc => (npc, s)
  | none =>
      let npc : NPCState :=
        { name := p.name
          description := p.description.getD ""
          personality := p.personality.getD ""
          resistance := p.resistance.getD 5
          relationship := p.relationship.getD 0 }
      (npc, { s with npcs := dictSet p.name npc s.npcs })

/-- Embeds `GameState.from_world_schema`. -/
def GameState.from_world_schema (setting : String) (schema : WorldSetupSchema) : GameState :=
  { world_setting := setting
    opening_scene := schema.opening_scene
    current_problem := schema.initial_problem
    npcs := schema.npcs.foldl (fun m n => dictSet n.name (NPCState.from_schema n) m) [] }

/-- Embeds `GameState._normalize_deltas`: clamp the proposed deltas by outcome
category. -/
def GameState.normalize_deltas (outcome : String) (resistance_change relationship_change : Int) :
    Int × Int :=
  let outcome_key := pyLower (pyStrip outcome)
  if outcome_key = "success" then
    (min resistance_change (-1), max relationship_change 1)
  else if outcome_key = "failure" then
    (max resistance_change 0, min relationship_change 0)
  else
    (max (min resistance_change 2) (-2), max (min relationship_change 2) (-2))

/-- Embeds `GameState.apply_resolution`: ensure the active NPC exists, clamp the
proposed deltas by normalised outcome, mutate the NPC, record the turn with
the effective shifts and at most three branches, and advance the problem.
Returns (record, npc) with the updated state. -/
def GameState.apply_resolution (s : GameState) (resolution : TurnResolutionSchema)
    (player_message : String) : TurnRecord × NPCState × GameState :=
  let npc_payload := resolution.active_npc.model_dump
  let r0 := s.ensure_npc npc_payload
  let npc := r0.1
  let s := r0.2
  let prev_resistance := npc.resistance
  let prev_relationship := npc.relationship
  let d := GameState.normalize_deltas resolution.normalised_outcome
    resolution.npc_resistance_change resolution.npc_relationship_change
  let npc := npc.adjust d.1 d.2
  let s := { s with npcs := dictSet npc_payload.name npc s.npcs }
  let actual_resistance_shift := npc.resistance - prev_resistance
  let actual_relationship_shift := npc.relationship - prev_relationship
  let branches := resolution.branches.take 3
  let r1 := s.record_turn npc.name s.current_problem player_message resolution.npc_response
    resolution.normalised_outcome resolution.outcome_summary
    actual_resistance_shift actual_relationship_shift branches
  let record := r1.1
  let s := r1.2
  let s := { s with
      current_problem :=
        if resolution.next_problem ≠ "" then resolution.next_problem else s.current_problem
      pending_branches := branches }
  (record, npc, s)

/-! ### Invariants, predicates and sample data used by the theorems -/

/-- Every NPC stored in the state has non-negative resistance. -/
def GameState.resistance_nonneg (s : GameState) : Prop :=
  ∀ e ∈ s.npcs, 0 ≤ e.2.resistance

/-- The turn history is sequentially numbered: the n-th record (0-based
index i) has `turn_number = i + 1`. -/
def sequentially_numbered (h : List TurnRecord) : Prop :=
  ∀ i : Fin h.length, (h.get i).turn_number = i.1 + 1

/-- Holds when `l1` begins `l2` (so `l2` extends `l1` without modifying it). -/
def isPrefixList {α : Type} (l1 l2 : List α) : Prop :=
  ∃ t, l1 ++ t = l2

/-- Holds when `t` occurs contiguously inside `l`. -/
def isSubstring (t l : List Char) : Prop :=
  ∃ s1 s2, s1 ++ t ++ s2 = l

/-- Sample data used by the witness theorems. -/
def sampleNPC : NPCState :=
  { name := "Alex", description := "Builder", personality := "Stoic",
    resistance := 4, relationship := 1 }

def sampleState : GameState :=
  { world_setting := "Test World", opening_scene := "Scene",
    current_problem := "Initial problem", npcs := [("Alex", sampleNPC)] }

def sampleResolution : TurnResolutionSchema :=
  { active_npc := { name := "Alex", resistance := 4, relationship := 1 }
    npc_response := "One. Two. Three."
    outcome_type := "Success"
    outcome_summary := "You convinced Alex."
    npc_resistance_change := 2
    npc_relationship_change := -3
    next_problem := "Next dilemma"
    branches := [{ title := "A" }, { title := "B" }] }

/-! ### src/src/services/gpt_client.py: JSON recovery

`json.loads` is modelled by an executable recursive-descent parser over
`List Char` following the JSON grammar Python's `json` module accepts
(strict mode, including the `NaN`/`Infinity` constants). Numbers keep their
lexeme; strings keep their raw (escaped) contents. -/

inductive Json where
  | null
  | bool (b : Bool)
  | num (lexeme : List Char)
  | str (contents : List Char)
  | arr (items : List Json)
  | obj (members : List (List Char × Json))
deriving Repr

/-- JSON whitespace as skipped by Python's json scanner. -/
def jsonWs (c : Char) : Bool := c = ' ' || c = '\t' || c = '\n' || c = '\r'

def skipWs : List Char → List Char
  | [] => []
  | c :: rest => if jsonWs c then skipWs rest else c :: rest

def isDigitChar (c : Char) : Bool := '0' ≤ c && c ≤ '9'

def takeDigits : List Char → List Char × List Char
  | [] => ([], [])
  | c :: rest =>
      if isDigitChar c then
        let r := takeDigits rest
        (c :: r.1, r.2)
      else ([], c :: rest)

/-- Integer part of the JSON number grammar: `0` or a nonzero digit followed
by digits. -/
def parseIntPart : List Char → Option (List Char × List Char)
  | [] => none
  | c :: rest =>
      if c = '0' then some (['0'], rest)
      else if isDigitChar c then
        let r := takeDigits rest
        some (c :: r.1, r.2)
      else none

/-- Optional fraction part `.digits` (contributes nothing when absent). -/
def parseFracPart : List Char → List Char × List Char
  | [] => ([], [])
  | c :: rest =>
      if c = '.' then
        match takeDigits rest with
        | ([], _) => ([], c :: rest)
        | (ds, r) => (c :: ds, r)
      else ([], c :: rest)

/-- Optional exponent part `[eE][+-]?digits`. -/
def parseExpPart : List Char → List Char × List Char
  | [] => ([], [])
  | c :: rest =>
      if c = 'e' ∨ c = 'E' then
        match rest with
        | [] => ([], [c])
        | s :: rest2 =>
            if s = '+' ∨ s = '-' then
              match takeDigits rest2 with
              | ([], _) => ([], c :: s :: rest2)
              | (ds, r) => (c :: s :: ds, r)
            else
              match takeDigits rest with
              | ([], _) => ([], c :: rest)
              | (ds, r) => (c :: ds, r)
      else ([], c :: rest)

/-- JSON number at the head of the input: returns the lexeme and the rest. -/
def parseNumber (l : List Char) : Option (List Char × List Char) :=
  match l with
  | '-' :: rest =>
      match parseIntPart rest with
      | none => none
      | some (ip, r1) =>
          let f := parseFracPart r1
          let e := parseExpPart f.2
          some ('-' :: (ip ++ f.1 ++ e.1), e.2)
  | _ =>
      match parseIntPart l with
      | none => none
      | some (ip, r1) =>
          let f := parseFracPart r1
          let e := parseExpPart f.2
          some (ip ++ f.1 ++ e.1, e.2)

def isHexDigit (c : Char) : Bool :=
  isDigitChar c || ('a' ≤ c && c ≤ 'f') || ('A' ≤ c && c ≤ 'F')

/-- Body of a JSON string after the opening quote (strict mode: raw control
characters are rejected, escapes restricted to the JSON set). Returns the
raw contents and the input after the closing quote. -/
def parseStringBody : Nat → List Char → Option (List Char × List Char)
  | 0, _ => none
  | _, [] => none
  | fuel + 1, c :: rest =>
      if c = '"' then some ([], rest)
      else if c = '\\' then
        match rest with
        | [] => none
        | e :: rest2 =>
            if e = 'u' then
              match rest2 with
              | a :: b :: c2 :: d :: rest3 =>
                  if isHexDigit a && isHexDigit b && isHexDigit c2 && isHexDigit d then
                    match parseStringBody fuel rest3 with
                    | some (sb, r) => some ('\\' :: 'u' :: a :: b :: c2 :: d :: sb, r)
                    | none => none
                  else none
              | _ => none
            else if e = '"' ∨ e = '\\' ∨ e = '/' ∨ e = 'b' ∨ e = 'f' ∨ e = 'n' ∨
                e = 'r' ∨ e = 't' then
              match parseStringBody fuel rest2 with
              | some (sb, r) => some ('\\' :: e :: sb, r)
              | none => none
            else none
      else if c.toNat < 32 then none
      else
        match parseStringBody fuel rest with
        | some (sb, r) => some (c :: sb, r)
        | none => none

mutual

def parseValue : Nat → List Char → Option (Json × List Char)
  | 0, _ => none
  | fuel + 1, l =>
      match skipWs l with
      | [] => none
      | c :: rest =>
          if c = '{' then parseObjBody fuel rest
          else if c = '[' then parseArrBody fuel rest
          else if c = '"' then
            match parseStringBody (rest.length + 1) rest with
            | some (sb, r) => some (Json.str sb, r)
            | none => none
          else
            let l' := c :: rest
            if "true".data.isPrefixOf l' then some (Json.bool true, l'.drop 4)
            else if "false".data.isPrefixOf l' then some (Json.bool false, l'.drop 5)
            else if "null".data.isPrefixOf l' then some (Json.null, l'.drop 4)
            else if "NaN".data.isPrefixOf l' then some (Json.num "NaN".data, l'.drop 3)
            else if "Infinity".data.isPrefixOf l' then
              some (Json.num "Infinity".data, l'.drop 8)
            else if "-Infinity".data.isPrefixOf l' then
              some (Json.num "-Infinity".data, l'.drop 9)
            else
              match parseNumber l' with
              | some (lex, r) => some (Json.num lex, r)
              | none => none

def parseObjBody : Nat → List Char → Option (Json × List Char)
  | 0, _ => none
  | fuel + 1, l =>
      match skipWs l with
      | '}' :: rest => some (Json.obj [], rest)
      | l' =>
          match parseMembers fuel l' with
          | some (ms, r) => some (Json.obj ms, r)
          | none => none

def parseMembers : Nat → List Char → Option (List (List Char × Json) × List Char)
  | 0, _ => none
  | fuel + 1, l =>
      match skipWs l with
      | '"' :: rest =>
          match parseStringBody (rest.length + 1) rest with
          | some (k, r1) =>
              match skipWs r1 with
              | ':' :: r2 =>
                  match parseValue fuel r2 with
                  | some (v, r3) =>
                      match skipWs r3 with
                      | ',' :: r4 =>
                          match parseMembers fuel r4 with
                          | some (ms, r5) => some ((k, v) :: ms, r5)
                          | none => none
                      | '}' :: r4 => some ([(k, v)], r4)
                      | _ => none
                  | none => none
              | _ => none
          | none => none
      | _ => none

def parseArrBody : Nat → List Char → Option (Json × List Char)
  | 0, _ => none
  | fuel + 1, l =>
      match skipWs l with
      | ']' :: rest => some (Json.arr [], rest)
      | l' =>
          match parseItems fuel l' with
          | some (vs, r) => some (Json.arr vs, r)
          | none => none

def parseItems : Nat → List Char → Option (List Json × List Char)
  | 0, _ => none
  | fuel + 1, l =>
      match parseValue fuel l with
      | some (v, r1) =>
          match skipWs r1 with
          | ',' :: r2 =>
              match parseItems fuel r2 with
              | some (vs, r3) => some (v :: vs, r3)
              | none => none
          | ']' :: r2 => some ([v], r2)
          | _ => none
      | none => none

end

/-- Model of Python `json.loads` on character lists: parse one JSON value
and require only whitespace to remain. -/
def json_loads_chars (l : List Char) : Option Json :=
  match parseValue (l.length + 1) l with
  | some (v, rest) => if skipWs rest = [] then some v else none
  | none => none

/-- Model of Python `json.loads` on strings. -/
def json_loads (s : String) : Option Json := json_loads_chars s.data

/-- The "```" fence marker. -/
def fenceChars : List Char := "```".data

/-- Python `str.splitlines()` restricted to `\n` separators. -/
def splitOnNl : List Char → List (List Char)
  | [] => [[]]
  | c :: rest =>
      match splitOnNl rest with
      | [] => [[]]
      | h :: t => if c = '\n' then [] :: h :: t else (c :: h) :: t

/-- Python `"\n".join(...)` on character lists. -/
def joinNl : List (List Char) → List Char
  | [] => []
  | [l] => l
  | l :: l2 :: rest => l ++ '\n' :: joinNl (l2 :: rest)

/-- Embeds `GPTClient._strip_code_fences`: when the text both starts and ends with
"```", drop the first line when its stripped form starts with "```", drop
the last line when its stripped form is exactly "```", re-join and strip;
otherwise return the text unchanged. -/
def strip_code_fences (text : String) : String :=
  if fenceChars.isPrefixOf text.data ∧ fenceChars.reverse.isPrefixOf text.data.reverse then
    let lines := splitOnNl text.data
    let lines :=
      match lines with
      | [] => []
      | l0 :: rest => if fenceChars.isPrefixOf (pyStripChars l0) then rest else l0 :: rest
    let lines :=
      match lines.getLast? with
      | some last => if pyStripChars last = fenceChars then lines.dropLast else lines
      | none => lines
    String.mk (pyStripChars (joinNl lines))
  else text

/-- The brace-depth scan of `GPTClient._extract_first_json`: `text` is the
whole input (for slicing), the second argument the yet-unscanned suffix,
with the current index, depth and the recorded start of the current
top-level candidate. -/
def extractScan (text : List Char) : List Char → Nat → Nat → Option Nat → Option (List Char)
  | [], _, _, _ => none
  | c :: rest, idx, depth, start =>
      if c = '{' then
        extractScan text rest (idx + 1) (depth + 1) (if depth = 0 then some idx else start)
      else if c = '}' then
        if depth = 0 then extractScan text rest (idx + 1) depth start
        else if depth = 1 then
          match start with
          | some st =>
              if (json_loads_chars ((text.drop st).take (idx + 1 - st))).isSome then
                some ((text.drop st).take (idx + 1 - st))
              else extractScan text rest (idx + 1) (depth - 1) start
          | none => extractScan text rest (idx + 1) (depth - 1) start
        else extractScan text rest (idx + 1) (depth - 1) start
      else extractScan text rest (idx + 1) depth start

/-- Index of the first '\x7b' in the list, if any. -/
def firstBraceIdx : List Char → Nat → Option Nat
  | [], _ => none
  | c :: rest, idx => if c = '{' then some idx else firstBraceIdx rest (idx + 1)

/-- Index of the last '\x7d' in the list, if any. -/
def lastCloseIdx : List Char → Nat → Option Nat → Option Nat
  | [], _, acc => acc
  | c :: rest, idx, acc =>
      lastCloseIdx rest (idx + 1) (if c = '}' then some idx else acc)

/-- The final fallback of `_extract_first_json`:
`re.search(r"\x7b.*\x7d", text, re.DOTALL)`, i.e. the greedy span from the
first '\x7b' to the last '\x7d' when the latter comes after the former. -/
def regexFallbackSpan (l : List Char) : Option (List Char) :=
  match firstBraceIdx l 0, lastCloseIdx l 0 none with
  | some i, some j => if i < j then some ((l.drop i).take (j + 1 - i)) else none
  | _, _ => none

/-- Embeds `GPTClient._extract_first_json`. -/
def extract_first_json (l : List Char) : Option (List Char) :=
  match extractScan l l 0 0 none with
  | some c => some c
  | none => regexFallbackSpan l

/-- The two kinds of error `_safe_json` can raise: its own `RuntimeError`
and the `json.JSONDecodeError` that `json.loads(extracted)` may raise. -/
inductive SafeJsonError where
  | runtimeError (msg : String)
  | jsonDecodeError
deriving Repr, DecidableEq

/-- Embeds `GPTClient._safe_json`. -/
def safe_json (content : String) : Except SafeJsonError Json :=
  let cleaned := strip_code_fences (pyStrip content)
  match json_loads cleaned with
  | some v => Except.ok v
  | none =>
      match extract_first_json cleaned.data with
      | some extracted =>
          if extracted ≠ [] then
            match json_loads_chars extracted with
            | some v => Except.ok v
            | none => Except.error SafeJsonError.jsonDecodeError
          else
            Except.error (SafeJsonError.runtimeError
              "Model returned invalid JSON and no recoverable payload")
      | none =>
          Except.error (SafeJsonError.runtimeError
            "Model returned invalid JSON and no recoverable payload")

/-- Brace balance check: every '\x7d' matches an earlier '\x7b' and the net
depth returns to the initial value. -/
def balancedBraces : List Char → Nat → Bool
  | [], d => d = 0
  | c :: rest, d =>
      if c = '{' then balancedBraces rest (d + 1)
      else if c = '}' then decide (0 < d) && balancedBraces rest (d - 1)
      else balancedBraces rest d

/-- A balanced `\x7b...\x7d` block in the sense of the claim. -/
def isBraceBlock (l : List Char) : Bool :=
  l.head? = some '{' && l.getLast? = some '}' && balancedBraces l 0

/-! ### src/src/services/gpt_client.py: bounded retries with backoff

The two retry loops are embedded with the nondeterministic environment
(model responses or network failures per attempt) passed as an oracle; each
result carries the final outcome, the number of attempts actually made and
the list of `time.sleep` durations in seconds. -/

/-- Whether a raised Python exception is of a type the
`except (RuntimeError, ValidationError)` clause in
`_request_with_constraints` catches. -/
inductive ExcKind where
  | recoverable
  | fatal
deriving Repr, DecidableEq

/-- A raised Python exception. -/
structure PyExc where
  kind : ExcKind
  msg : String
deriving Repr, DecidableEq

/-- The loop of `_request_with_constraints` (attempts = 3): run the attempt
body; on a caught failure sleep `1.5 * (attempt + 1)` seconds and retry
unless this was the last attempt, in which case re-raise as RuntimeError;
uncaught exception kinds propagate at once. -/
def requestAux {α : Type} (body : Nat → Except PyExc α) :
    Nat → Nat → List ℚ → Except PyExc α × Nat × List ℚ
  | 0, attempt, sleeps =>
      (Except.error ⟨ExcKind.recoverable, "Model response failed validation"⟩, attempt,
        sleeps.reverse)
  | fuel + 1, attempt, sleeps =>
      match body attempt with
      | Except.ok v => (Except.ok v, attempt + 1, sleeps.reverse)
      | Except.error e =>
          match e.kind with
          | ExcKind.fatal => (Except.error e, attempt + 1, sleeps.reverse)
          | ExcKind.recoverable =>
              if fuel = 0 then
                (Except.error ⟨ExcKind.recoverable,
                    "Model response failed validation: " ++ e.msg⟩, attempt + 1,
                  sleeps.reverse)
              else
                requestAux body fuel (attempt + 1)
                  ((3 / 2 * ((attempt : ℚ) + 1)) :: sleeps)

/-- Embeds `GPTClient._request_with_constraints`: at most 3 attempts of the body
(complete, `_safe_json`, schema validation, `_enforce_constraints`). -/
def request_with_constraints {α : Type} (body : Nat → Except PyExc α) :
    Except PyExc α × Nat × List ℚ :=
  requestAux body 3 0 []

/-- The loop of `_complete`: up to 3 network attempts with doubling delay
(1.0 then 2.0 seconds) between them; the last failure is re-raised as a
RuntimeError. -/
def completeAux (net : Nat → Except String String) :
    Nat → Nat → ℚ → List ℚ → Except PyExc String × Nat × List ℚ
  | 0, attempt, _, sleeps =>
      (Except.error ⟨ExcKind.recoverable, "GPT request failed"⟩, attempt, sleeps.reverse)
  | fuel + 1, attempt, delay, sleeps =>
      match net attempt with
      | Except.ok content => (Except.ok (pyStrip content), attempt + 1, sleeps.reverse)
      | Except.error e =>
          if fuel = 0 then
            (Except.error ⟨ExcKind.recoverable, "GPT request failed: " ++ e⟩, attempt + 1,
              sleeps.reverse)
          else completeAux net fuel (attempt + 1) (delay * 2) (delay :: sleeps)

/-- Embeds `GPTClient._complete`. -/
def complete (net : Nat → Except String String) : Except PyExc String × Nat × List ℚ :=
  completeAux net 3 0 1 []

/-- An environment in which every attempt fails recoverably. -/
def failBody : Nat → Except PyExc Unit :=
  fun _ => Except.error ⟨ExcKind.recoverable, "invalid payload"⟩

/-- An environment in which every network call fails. -/
def failNet : Nat → Except String String :=
  fun _ => Except.error "connection reset"

/-! ### src/src/controllers/game_controller.py

One iteration of `GameController.run`'s main loop is embedded as a pure
transition; the outcome of `GPTClient.plan_turn` (the only effectful,
fallible step of `_play_turn`) is supplied by the environment. The view is
recorded as a list of emitted events. -/

/-- An observable call made on the view during a loop iteration. -/
inductive ViewEvent where
  | goodbye
  | emptyMessage
  | retryAvailable
  | errorMsg (msg : String)
  | turnResolution (record : TurnRecord) (npc : NPCState)
  | gameOver (ending : String)
  | journalSaved
deriving Repr, DecidableEq

/-- Whether the loop iteration ended with `break` or went back to the top. -/
inductive LoopExit where
  | continueLoop
  | breakLoop
deriving Repr, DecidableEq

/-- The controller's mutable fields relevant to the loop. -/
structure ControllerState where
  state : GameState
  retry_message : Option String
deriving Repr, DecidableEq

/-- Python `ending or "The story concludes here."`: `None` and the empty
string are both falsy. -/
def endingText (ending : Option String) : String :=
  match ending with
  | some e => if e = "" then "The story concludes here." else e
  | none => "The story concludes here."

/-- Shared tail of `_play_turn` success handling in the loop: apply the
resolution, display it, and stop on game over. -/
def playTurnSuccess (c : ControllerState) (resolution : TurnResolutionSchema)
    (pm : String) (preEvents : List ViewEvent) :
    ControllerState × List ViewEvent × LoopExit × Nat :=
  let res := c.state.apply_resolution resolution pm
  let events := preEvents ++ [ViewEvent.turnResolution res.1 res.2.1]
  if resolution.is_game_over then
    (⟨res.2.2, none⟩, events ++ [ViewEvent.gameOver (endingText resolution.ending_summary)],
      LoopExit.breakLoop, 1)
  else
    (⟨res.2.2, none⟩, events, LoopExit.continueLoop, 1)

/-- One iteration of the `while True` loop in `GameController.run`, given
the stripped player input `raw` and the `plan_turn` outcome `plan`. The
`Nat` component counts the turns actually played (`plan_turn` calls). -/
def loop_iteration (c : ControllerState) (raw : String)
    (plan : Except String TurnResolutionSchema) :
    ControllerState × List ViewEvent × LoopExit × Nat :=
  let preEvents := if c.retry_message.isSome then [ViewEvent.retryAvailable] else []
  if pyLower raw = "quit" then
    (c, preEvents ++ [ViewEvent.goodbye], LoopExit.breakLoop, 0)
  else if raw = "" then
    (c, preEvents ++ [ViewEvent.emptyMessage], LoopExit.continueLoop, 0)
  else if pyLower raw = "log" then
    (c, preEvents ++ [ViewEvent.journalSaved], LoopExit.continueLoop, 0)
  else if pyLower raw = "retry" then
    match c.retry_message with
    | none =>
        (c, preEvents ++ [ViewEvent.errorMsg "No turn available to retry."],
          LoopExit.continueLoop, 0)
    | some pm =>
        match plan with
        | Except.error e =>
            (c, preEvents ++ [ViewEvent.errorMsg ("Retry failed: " ++ e)],
              LoopExit.continueLoop, 1)
        | Except.ok resolution => playTurnSuccess c resolution pm preEvents
  else
    match plan with
    | Except.error e =>
        (⟨c.state, some raw⟩,
          preEvents ++ [ViewEvent.errorMsg ("Encounter failed due to an error: " ++ e)],
          LoopExit.continueLoop, 1)
    | Except.ok resolution => playTurnSuccess ⟨c.state, none⟩ resolution raw preEvents

theorem mem_dictSet {k : String} {v : NPCState} {l : List (String × NPCState)}
    {e : String × NPCState} (he : e ∈ dictSet k v l) : e ∈ l ∨ e.2 = v := by
  induction l with
  | nil =>
      simp only [dictSet, List.mem_singleton] at he
      exact Or.inr (by rw [he])
  | cons hd tl ih =>
      simp only [dictSet] at he
      by_cases hk : hd.1 = k
      · rw [if_pos hk] at he
        rcases List.mem_cons.mp he with h | h
        · exact Or.inr (by rw [h])
        · exact Or.inl (List.mem_cons_of_mem _ h)
      · rw [if_neg hk] at he
        rcases List.mem_cons.mp he with h | h
        · exact Or.inl (h ▸ List.mem_cons_self _ _)
        · rcases ih h with h' | h'
          · exact Or.inl (List.mem_cons_of_mem _ h')
          · exact Or.inr h'

theorem dictGet_dictSet_same (k : String) (v : NPCState) (l : List (String × NPCState)) :
    dictGet k (dictSet k v l) = some v := by
  induction l with
  | nil => simp [dictGet, dictSet]
  | cons hd tl ih =>
      simp only [dictSet]
      by_cases hk : hd.1 = k
      · rw [if_pos hk, dictGet, if_pos hk]
      · rw [if_neg hk, dictGet, if_neg hk, ih]

theorem normalised_outcome_cases (r : TurnResolutionSchema) :
    r.normalised_outcome = "Success" ∨ r.normalised_outcome = "Failure" ∨
      r.normalised_outcome = "Alternative" := by
  unfold TurnResolutionSchema.normalised_outcome
  by_cases h : pyLower (pyStrip r.outcome_type) = "success" ∨
      pyLower (pyStrip r.outcome_type) = "failure" ∨
      pyLower (pyStrip r.outcome_type) = "alternative"
  · simp only [if_pos h]
    rcases h with h | h | h <;> rw [h] <;> decide
  · simp only [if_neg h]
    simp

theorem normalize_deltas_success_eq (rc lc : Int) :
    GameState.normalize_deltas "Success" rc lc = (min rc (-1), max lc 1) := rfl

theorem normalize_deltas_failure_eq (rc lc : Int) :
    GameState.normalize_deltas "Failure" rc lc = (max rc 0, min lc 0) := rfl

theorem normalize_deltas_alternative_eq (rc lc : Int) :
    GameState.normalize_deltas "Alternative" rc lc =
      (max (min rc 2) (-2), max (min lc 2) (-2)) := rfl

theorem apply_resolution_npc_eq (s : GameState) (r : TurnResolutionSchema) (pm : String) :
    (s.apply_resolution r pm).2.1 =
      (s.ensure_npc r.active_npc.model_dump).1.adjust
        (GameState.normalize_deltas r.normalised_outcome r.npc_resistance_change
          r.npc_relationship_change).1
        (GameState.normalize_deltas r.normalised_outcome r.npc_resistance_change
          r.npc_relationship_change).2 := rfl

theorem sequentially_numbered_append {h : List TurnRecord} {rec : TurnRecord}
    (hs : sequentially_numbered h) (hr : rec.turn_number = h.length + 1) :
    sequentially_numbered (h ++ [rec]) := by
  intro i
  have hi := i.2
  simp only [List.length_append, List.length_singleton] at hi
  rcases Nat.lt_or_ge i.1 h.length with hlt | hge
  · have := hs ⟨i.1, hlt⟩
    simpa [List.get_eq_getElem, List.getElem_append_left hlt] using this
  · have hieq : i.1 = h.length := by omega
    simp [List.get_eq_getElem, hieq, List.getElem_concat_length, hr]

theorem record_turn_record_eq (s : GameState) (n d p resp ot os : String) (rs ls : Int)
    (br : List BranchSchema) :
    (s.record_turn n d p resp ot os rs ls br).1 =
      { turn_number := s.turn_history.length + 1, npc_name := n, dilemma := d,
        player_message := p, npc_response := resp, outcome_type := ot,
        outcome_summary := os, resistance_shift := rs, relationship_shift := ls,
        branches := br } := rfl

theorem record_turn_state_eq (s : GameState) (n d p resp ot os : String) (rs ls : Int)
    (br : List BranchSchema) :
    (s.record_turn n d p resp ot os rs ls br).2 =
      { s with
          turn_history := s.turn_history ++ [(s.record_turn n d p resp ot os rs ls br).1]
          total_successes :=
            if pyLower ot = "success" then s.total_successes + 1 else s.total_successes
          total_failures :=
            if pyLower ot = "success" then s.total_failures
            else if pyLower ot = "failure" then s.total_failures + 1 else s.total_failures
          pending_branches := br } := by
  unfold GameState.record_turn
  dsimp only
  split_ifs <;> rfl

theorem ensure_npc_state_fields (s : GameState) (p : NPCPayload) :
    (s.ensure_npc p).2.turn_history = s.turn_history ∧
    (s.ensure_npc p).2.total_successes = s.total_successes ∧
    (s.ensure_npc p).2.total_failures = s.total_failures ∧
    (s.ensure_npc p).2.current_problem = s.current_problem := by
  unfold GameState.ensure_npc
  cases dictGet p.name s.npcs <;> dsimp only <;> exact ⟨rfl, rfl, rfl, rfl⟩

theorem apply_resolution_state_proj (s : GameState) (r : TurnResolutionSchema) (pm : String) :
    (s.apply_resolution r pm).2.2.turn_history
        = s.turn_history ++ [(s.apply_resolution r pm).1] ∧
    (s.apply_resolution r pm).1.turn_number = s.turn_history.length + 1 ∧
    (s.apply_resolution r pm).1.dilemma = s.current_problem ∧
    (s.apply_resolution r pm).2.2.npcs
        = dictSet r.active_npc.name (s.apply_resolution r pm).2.1
            (s.ensure_npc r.active_npc.model_dump).2.npcs := by
  rcases hget : dictGet r.active_npc.model_dump.name s.npcs with _ | npc0 <;>
    refine ⟨?_, ?_, ?_, ?_⟩ <;>
    simp only [GameState.apply_resolution, GameState.ensure_npc, GameState.record_turn,
      hget] <;>
    split_ifs <;> rfl

/-! ### Claim theorems -/

/-- C1: in `apply_resolution`, the proposed deltas are clamped by outcome
category before mutating the NPC's counters: on "Success" the applied
resistance delta is at most -1 and the relationship delta at least +1; on
"Failure" the resistance delta is at least 0 and the relationship delta at
most 0; for any other normalised outcome both deltas lie in [-2, 2]. -/
theorem apply_resolution_clamps_deltas (s : GameState) (r : TurnResolutionSchema)
    (pm : String) (d1 d2 : Int)
    (hd : GameState.normalize_deltas r.normalised_outcome r.npc_resistance_change
      r.npc_relationship_change = (d1, d2)) :
    (s.apply_resolution r pm).2.1 =
      (s.ensure_npc r.active_npc.model_dump).1.adjust d1 d2 ∧
    (r.normalised_outcome = "Success" → d1 ≤ -1 ∧ 1 ≤ d2) ∧
    (r.normalised_outcome = "Failure" → 0 ≤ d1 ∧ d2 ≤ 0) ∧
    (r.normalised_outcome ≠ "Success" → r.normalised_outcome ≠ "Failure" →
      -2 ≤ d1 ∧ d1 ≤ 2 ∧ -2 ≤ d2 ∧ d2 ≤ 2) := by
  refine ⟨?_, ?_, ?_, ?_⟩
  · rw [apply_resolution_npc_eq, hd]
  · intro h
    rw [h, normalize_deltas_success_eq] at hd
    obtain ⟨h1, h2⟩ := Prod.mk.injEq .. ▸ hd
    exact ⟨h1 ▸ min_le_right _ _, h2 ▸ le_max_right _ _⟩
  · intro h
    rw [h, normalize_deltas_failure_eq] at hd
    obtain ⟨h1, h2⟩ := Prod.mk.injEq .. ▸ hd
    exact ⟨h1 ▸ le_max_right _ _, h2 ▸ min_le_right _ _⟩
  · intro h1 h2
    rcases normalised_outcome_cases r with h | h | h
    · exact absurd h h1
    · exact absurd h h2
    · rw [h, normalize_deltas_alternative_eq] at hd
      obtain ⟨hd1, hd2⟩ := Prod.mk.injEq .. ▸ hd
      refine ⟨hd1 ▸ le_max_right _ _, hd1 ▸ max_le ((min_le_right _ _).trans (by norm_num))
        (by norm_num), hd2 ▸ le_max_right _ _, hd2 ▸ max_le ((min_le_right _ _).trans
        (by norm_num)) (by norm_num)⟩

/-- Witness for C1 at a concrete resolution: the model proposed deltas of
+2 and -3 on a "Success" outcome and the applied deltas are the clamped
-1 and +1. -/
theorem apply_resolution_clamps_deltas_witness :
    (sampleState.apply_resolution sampleResolution "Hello").2.1 =
      (sampleState.ensure_npc sampleResolution.active_npc.model_dump).1.adjust (-1) 1 ∧
    (sampleResolution.normalised_outcome = "Success" → (-1 : Int) ≤ -1 ∧ (1 : Int) ≤ 1) ∧
    (sampleResolution.normalised_outcome = "Failure" → (0 : Int) ≤ -1 ∧ (1 : Int) ≤ 0) ∧
    (sampleResolution.normalised_outcome ≠ "Success" →
      sampleResolution.normalised_outcome ≠ "Failure" →
      (-2 : Int) ≤ -1 ∧ (-1 : Int) ≤ 2 ∧ (-2 : Int) ≤ 1 ∧ (1 : Int) ≤ 2) :=
  apply_resolution_clamps_deltas sampleState sampleResolution "Hello" (-1) 1 (by decide)

/-- C2: `adjust` sets resistance to `max 0 (resistance + delta)` (hence
non-negative) and updates relationship without a clamp; consequently
`update_npc` preserves non-negativity of every stored resistance, and the
NPC returned by `apply_resolution` has non-negative resistance. -/
theorem adjust_clamps_resistance (npc : NPCState) (rd ld : Int) (s : GameState)
    (name pm : String) (r : TurnResolutionSchema) (hs : s.resistance_nonneg) :
    (npc.adjust rd ld).resistance = max 0 (npc.resistance + rd) ∧
    (npc.adjust rd ld).relationship = npc.relationship + ld ∧
    0 ≤ (npc.adjust rd ld).resistance ∧
    (s.update_npc name rd ld).resistance_nonneg ∧
    0 ≤ (s.apply_resolution r pm).2.1.resistance := by
  refine ⟨rfl, rfl, le_max_left _ _, ?_, ?_⟩
  · unfold GameState.update_npc
    cases hget : dictGet name s.npcs with
    | none => exact hs
    | some npc0 =>
        intro e he
        rcases mem_dictSet he with h | h
        · exact hs e h
        · rw [h]; exact le_max_left _ _
  · rw [apply_resolution_npc_eq]
    exact le_max_left _ _

/-- Witness for C2 at a concrete state. -/
theorem adjust_clamps_resistance_witness :
    ((sampleNPC.adjust (-7) 3).resistance = max 0 (sampleNPC.resistance + (-7)) ∧
    (sampleNPC.adjust (-7) 3).relationship = sampleNPC.relationship + 3 ∧
    0 ≤ (sampleNPC.adjust (-7) 3).resistance ∧
    (sampleState.update_npc "Alex" (-7) 3).resistance_nonneg ∧
    0 ≤ (sampleState.apply_resolution sampleResolution "Hello").2.1.resistance) :=
  adjust_clamps_resistance sampleNPC (-7) 3 sampleState "Alex" "Hello" sampleResolution
    (by intro e he; simp [sampleState, sampleNPC] at he; rw [he]; decide)

/-- C6: a completed turn appends exactly one record to the history, carrying
the turn number `len + 1`, the NPC name, the current dilemma, the player
message, the model response, the normalised outcome, the post-clamp
effective shifts, and at most 3 branch options; sequential numbering is
preserved and the existing records survive unchanged as a prefix. -/
theorem apply_resolution_appends_one_record (s : GameState) (r : TurnResolutionSchema)
    (pm : String) (hseq : sequentially_numbered s.turn_history) :
    (s.apply_resolution r pm).2.2.turn_history
        = s.turn_history ++ [(s.apply_resolution r pm).1] ∧
    isPrefixList s.turn_history (s.apply_resolution r pm).2.2.turn_history ∧
    (s.apply_resolution r pm).1.turn_number = s.turn_history.length + 1 ∧
    sequentially_numbered (s.apply_resolution r pm).2.2.turn_history ∧
    (s.apply_resolution r pm).1.npc_name = (s.ensure_npc r.active_npc.model_dump).1.name ∧
    (s.apply_resolution r pm).1.dilemma = s.current_problem ∧
    (s.apply_resolution r pm).1.player_message = pm ∧
    (s.apply_resolution r pm).1.npc_response = r.npc_response ∧
    (s.apply_resolution r pm).1.outcome_type = r.normalised_outcome ∧
    (s.apply_resolution r pm).1.outcome_summary = r.outcome_summary ∧
    (s.apply_resolution r pm).1.branches = r.branches.take 3 ∧
    (s.apply_resolution r pm).1.branches.length ≤ 3 ∧
    (s.apply_resolution r pm).1.resistance_shift
        = (s.apply_resolution r pm).2.1.resistance
          - (s.ensure_npc r.active_npc.model_dump).1.resistance ∧
    (s.apply_resolution r pm).1.relationship_shift
        = (s.apply_resolution r pm).2.1.relationship
          - (s.ensure_npc r.active_npc.model_dump).1.relationship := by
  obtain ⟨hhist, htn, hdil, -⟩ := apply_resolution_state_proj s r pm
  refine ⟨hhist, ⟨[(s.apply_resolution r pm).1], hhist.symm⟩, htn, ?_, rfl, hdil, rfl, rfl,
    rfl, rfl, rfl, ?_, rfl, rfl⟩
  · rw [hhist]
    exact sequentially_numbered_append hseq htn
  · have hbr : (s.apply_resolution r pm).1.branches = r.branches.take 3 := rfl
    rw [hbr, List.length_take]
    exact min_le_left _ _

/-- Witness for C6 at a concrete state with empty history. -/
theorem apply_resolution_appends_one_record_witness :
    (sampleState.apply_resolution sampleResolution "Hello").2.2.turn_history
        = sampleState.turn_history ++ [(sampleState.apply_resolution sampleResolution "Hello").1] ∧
    isPrefixList sampleState.turn_history
      (sampleState.apply_resolution sampleResolution "Hello").2.2.turn_history ∧
    (sampleState.apply_resolution sampleResolution "Hello").1.turn_number
        = sampleState.turn_history.length + 1 ∧
    sequentially_numbered
      (sampleState.apply_resolution sampleResolution "Hello").2.2.turn_history ∧
    (sampleState.apply_resolution sampleResolution "Hello").1.npc_name
        = (sampleState.ensure_npc sampleResolution.active_npc.model_dump).1.name ∧
    (sampleState.apply_resolution sampleResolution "Hello").1.dilemma
        = sampleState.current_problem ∧
    (sampleState.apply_resolution sampleResolution "Hello").1.player_message = "Hello" ∧
    (sampleState.apply_resolution sampleResolution "Hello").1.npc_response
        = sampleResolution.npc_response ∧
    (sampleState.apply_resolution sampleResolution "Hello").1.outcome_type
        = sampleResolution.normalised_outcome ∧
    (sampleState.apply_resolution sampleResolution "Hello").1.outcome_summary
        = sampleResolution.outcome_summary ∧
    (sampleState.apply_resolution sampleResolution "Hello").1.branches
        = sampleResolution.branches.take 3 ∧
    (sampleState.apply_resolution sampleResolution "Hello").1.branches.length ≤ 3 ∧
    (sampleState.apply_resolution sampleResolution "Hello").1.resistance_shift
        = (sampleState.apply_resolution sampleResolution "Hello").2.1.resistance
          - (sampleState.ensure_npc sampleResolution.active_npc.model_dump).1.resistance ∧
    (sampleState.apply_resolution sampleResolution "Hello").1.relationship_shift
        = (sampleState.apply_resolution sampleResolution "Hello").2.1.relationship
          - (sampleState.ensure_npc sampleResolution.active_npc.model_dump).1.relationship :=
  apply_resolution_appends_one_record sampleState sampleResolution "Hello"
    (fun i => absurd i.2 (by simp [sampleState]))

/-- C9: when the active NPC already exists, `apply_resolution` applies the
clamped deltas to the stored counters and keeps the stored description and
personality, ignoring the absolute values the model supplied; a brand-new
name is inserted from the payload, with resistance defaulting to 5 and
relationship to 0 when the payload omits them. -/
theorem apply_resolution_ignores_supplied_counters (s : GameState) (r : TurnResolutionSchema)
    (pm : String) (d1 d2 : Int)
    (hd : GameState.normalize_deltas r.normalised_outcome r.npc_resistance_change
      r.npc_relationship_change = (d1, d2)) :
    (∀ npc0, dictGet r.active_npc.name s.npcs = some npc0 →
      (s.apply_resolution r pm).2.1 = npc0.adjust d1 d2 ∧
      (s.apply_resolution r pm).2.1.description = npc0.description ∧
      (s.apply_resolution r pm).2.1.personality = npc0.personality ∧
      (s.apply_resolution r pm).2.1.resistance = max 0 (npc0.resistance + d1) ∧
      (s.apply_resolution r pm).2.1.relationship = npc0.relationship + d2 ∧
      dictGet r.active_npc.name (s.apply_resolution r pm).2.2.npcs
        = some ((s.apply_resolution r pm).2.1)) ∧
    (∀ p : NPCPayload, dictGet p.name s.npcs = none →
      (s.ensure_npc p).1 =
        { name := p.name, description := p.description.getD "",
          personality := p.personality.getD "", resistance := p.resistance.getD 5,
          relationship := p.relationship.getD 0 } ∧
      dictGet p.name (s.ensure_npc p).2.npcs = some ((s.ensure_npc p).1)) ∧
    (dictGet r.active_npc.name s.npcs = none →
      (s.ensure_npc r.active_npc.model_dump).1 =
        { name := r.active_npc.name, description := r.active_npc.description,
          personality := r.active_npc.personality, resistance := r.active_npc.resistance,
          relationship := r.active_npc.relationship }) := by
  obtain ⟨-, -, -, hnpcs⟩ := apply_resolution_state_proj s r pm
  refine ⟨?_, ?_, ?_⟩
  · intro npc0 hget
    have hens : (s.ensure_npc r.active_npc.model_dump).1 = npc0 := by
      simp [GameState.ensure_npc, NPCSchema.model_dump, hget]
    have h1 : (s.apply_resolution r pm).2.1 = npc0.adjust d1 d2 := by
      rw [apply_resolution_npc_eq, hens, hd]
    exact ⟨h1, by rw [h1]; rfl, by rw [h1]; rfl, by rw [h1]; rfl, by rw [h1]; rfl,
      by rw [hnpcs]; exact dictGet_dictSet_same _ _ _⟩
  · intro p hp
    constructor
    · simp [GameState.ensure_npc, hp]
    · simp only [GameState.ensure_npc, hp]
      exact dictGet_dictSet_same _ _ _
  · intro hget
    simp [GameState.ensure_npc, NPCSchema.model_dump, hget]

/-- Witness for C9: the stored "Alex" keeps description and personality and
gets the clamped deltas; the fresh payload path defaults resistance to 5. -/
theorem apply_resolution_ignores_supplied_counters_witness :
    (∀ npc0, dictGet sampleResolution.active_npc.name sampleState.npcs = some npc0 →
      (sampleState.apply_resolution sampleResolution "Hi").2.1 = npc0.adjust (-1) 1 ∧
      (sampleState.apply_resolution sampleResolution "Hi").2.1.description
          = npc0.description ∧
      (sampleState.apply_resolution sampleResolution "Hi").2.1.personality
          = npc0.personality ∧
      (sampleState.apply_resolution sampleResolution "Hi").2.1.resistance
          = max 0 (npc0.resistance + (-1)) ∧
      (sampleState.apply_resolution sampleResolution "Hi").2.1.relationship
          = npc0.relationship + 1 ∧
      dictGet sampleResolution.active_npc.name
          (sampleState.apply_resolution sampleResolution "Hi").2.2.npcs
        = some ((sampleState.apply_resolution sampleResolution "Hi").2.1)) ∧
    (∀ p : NPCPayload, dictGet p.name sampleState.npcs = none →
      (sampleState.ensure_npc p).1 =
        { name := p.name, description := p.description.getD "",
          personality := p.personality.getD "", resistance := p.resistance.getD 5,
          relationship := p.relationship.getD 0 } ∧
      dictGet p.name (sampleState.ensure_npc p).2.npcs
        = some ((sampleState.ensure_npc p).1)) ∧
    (dictGet sampleResolution.active_npc.name sampleState.npcs = none →
      (sampleState.ensure_npc sampleResolution.active_npc.model_dump).1 =
        { name := sampleResolution.active_npc.name,
          description := sampleResolution.active_npc.description,
          personality := sampleResolution.active_npc.personality,
          resistance := sampleResolution.active_npc.resistance,
          relationship := sampleResolution.active_npc.relationship }) :=
  apply_resolution_ignores_supplied_counters sampleState sampleResolution "Hi" (-1) 1
    (by decide)

/-- C10: `normalised_outcome` is total and lands in the three categories,
matching the trimmed lower-cased input when it is one of them and mapping
everything else to "Alternative"; `record_turn` bumps exactly the matching
counter, so successes plus failures never exceed the history length. -/
theorem normalised_outcome_total_and_counters (r : TurnResolutionSchema) (s : GameState)
    (n d p resp ot os : String) (rs ls : Int) (br : List BranchSchema)
    (hinv : s.total_successes + s.total_failures ≤ s.turn_history.length) :
    (r.normalised_outcome = "Success" ∨ r.normalised_outcome = "Failure" ∨
      r.normalised_outcome = "Alternative") ∧
    (pyLower (pyStrip r.outcome_type) = "success" → r.normalised_outcome = "Success") ∧
    (pyLower (pyStrip r.outcome_type) = "failure" → r.normalised_outcome = "Failure") ∧
    (pyLower (pyStrip r.outcome_type) = "alternative" →
      r.normalised_outcome = "Alternative") ∧
    (pyLower (pyStrip r.outcome_type) ≠ "success" →
      pyLower (pyStrip r.outcome_type) ≠ "failure" →
      pyLower (pyStrip r.outcome_type) ≠ "alternative" →
      r.normalised_outcome = "Alternative") ∧
    ((s.record_turn n d p resp ot os rs ls br).2.total_successes
        = if pyLower ot = "success" then s.total_successes + 1 else s.total_successes) ∧
    ((s.record_turn n d p resp ot os rs ls br).2.total_failures
        = if pyLower ot = "success" then s.total_failures
          else if pyLower ot = "failure" then s.total_failures + 1
          else s.total_failures) ∧
    (s.record_turn n d p resp ot os rs ls br).2.total_successes
        + (s.record_turn n d p resp ot os rs ls br).2.total_failures
      ≤ (s.record_turn n d p resp ot os rs ls br).2.turn_history.length := by
  have hrec := record_turn_state_eq s n d p resp ot os rs ls br
  refine ⟨normalised_outcome_cases r, ?_, ?_, ?_, ?_, ?_, ?_, ?_⟩
  · intro h
    simp only [TurnResolutionSchema.normalised_outcome, h]
    decide
  · intro h
    simp only [TurnResolutionSchema.normalised_outcome, h]
    decide
  · intro h
    simp only [TurnResolutionSchema.normalised_outcome, h]
    decide
  · intro h1 h2 h3
    simp only [TurnResolutionSchema.normalised_outcome]
    rw [if_neg (by simp [h1, h2, h3])]
  · rw [hrec]
  · rw [hrec]
  · rw [hrec]
    dsimp only
    split_ifs <;> simp [List.length_append] <;> omega

/-- Witness for C10 at a concrete resolution and state. -/
theorem normalised_outcome_total_and_counters_witness :
    (sampleResolution.normalised_outcome = "Success" ∨
      sampleResolution.normalised_outcome = "Failure" ∨
      sampleResolution.normalised_outcome = "Alternative") ∧
    (pyLower (pyStrip sampleResolution.outcome_type) = "success" →
      sampleResolution.normalised_outcome = "Success") ∧
    (pyLower (pyStrip sampleResolution.outcome_type) = "failure" →
      sampleResolution.normalised_outcome = "Failure") ∧
    (pyLower (pyStrip sampleResolution.outcome_type) = "alternative" →
      sampleResolution.normalised_outcome = "Alternative") ∧
    (pyLower (pyStrip sampleResolution.outcome_type) ≠ "success" →
      pyLower (pyStrip sampleResolution.outcome_type) ≠ "failure" →
      pyLower (pyStrip sampleResolution.outcome_type) ≠ "alternative" →
      sampleResolution.normalised_outcome = "Alternative") ∧
    ((sampleState.record_turn "Alex" "D" "M" "R" "Success" "S" (-1) 1 []).2.total_successes
        = if pyLower "Success" = "success" then sampleState.total_successes + 1
          else sampleState.total_successes) ∧
    ((sampleState.record_turn "Alex" "D" "M" "R" "Success" "S" (-1) 1 []).2.total_failures
        = if pyLower "Success" = "success" then sampleState.total_failures
          else if pyLower "Success" = "failure" then sampleState.total_failures + 1
          else sampleState.total_failures) ∧
    (sampleState.record_turn "Alex" "D" "M" "R" "Success" "S" (-1) 1 []).2.total_successes
        + (sampleState.record_turn "Alex" "D" "M" "R" "Success" "S" (-1) 1
            []).2.total_failures
      ≤ (sampleState.record_turn "Alex" "D" "M" "R" "Success" "S" (-1) 1
            []).2.turn_history.length :=
  normalised_outcome_total_and_counters sampleResolution sampleState
    "Alex" "D" "M" "R" "Success" "S" (-1) 1 [] (by decide)

/-- C8: `update_npc` on an NPC name absent from the mapping is a total
no-op: the state (NPCs, history, counters) is returned unchanged. -/
theorem update_npc_missing_is_noop (s : GameState) (name : String) (rd ld : Int)
    (h : dictGet name s.npcs = none) : s.update_npc name rd ld = s := by
  unfold GameState.update_npc
  rw [h]

/-- Witness for C8: adjusting the unknown NPC "Bob" changes nothing. -/
theorem update_npc_missing_is_noop_witness :
    sampleState.update_npc "Bob" 2 2 = sampleState :=
  update_npc_missing_is_noop sampleState "Bob" 2 2 (by decide)

/-- C7: validating an NPC payload enforces `resistance ≥ 0` (negative values
produce a validation error), leaves `relationship` unconstrained, and every
NPC built from a validated schema starts with non-negative resistance. -/
theorem npc_schema_validation_resistance (p : NPCPayload) :
    (∀ sch, NPCSchema.validate p = Except.ok sch →
      0 ≤ sch.resistance ∧ 0 ≤ (NPCState.from_schema sch).resistance ∧
      sch.relationship = p.relationship.getD 0) ∧
    (p.resistance.getD 5 < 0 →
      NPCSchema.validate p = Except.error "Input should be greater than or equal to 0") ∧
    (0 ≤ p.resistance.getD 5 → ∃ sch, NPCSchema.validate p = Except.ok sch ∧
      sch.resistance = p.resistance.getD 5) := by
  refine ⟨?_, ?_, ?_⟩
  · intro sch h
    simp only [NPCSchema.validate] at h
    split_ifs at h with hneg
    · injection h with h'
      subst h'
      exact ⟨by dsimp only; omega, by simp only [NPCState.from_schema]; omega, rfl⟩
  · intro h
    simp only [NPCSchema.validate]
    rw [if_pos h]
  · intro h
    refine ⟨NPCSchema.mk p.name (p.description.getD "") (p.personality.getD "")
      (p.resistance.getD 5) (p.relationship.getD 0), ?_, rfl⟩
    simp only [NPCSchema.validate]
    rw [if_neg (by omega)]

/-- Witness for C7 on a payload carrying resistance -3 and on one carrying
resistance 7. -/
theorem npc_schema_validation_resistance_witness :
    ((NPCPayload.mk "Zed" none none (some (-3)) none).resistance.getD 5 < 0 →
      NPCSchema.validate (NPCPayload.mk "Zed" none none (some (-3)) none)
        = Except.error "Input should be greater than or equal to 0") ∧
    (0 ≤ (NPCPayload.mk "Kay" none none (some 7) none).resistance.getD 5 →
      ∃ sch, NPCSchema.validate (NPCPayload.mk "Kay" none none (some 7) none)
          = Except.ok sch ∧
        sch.resistance = (NPCPayload.mk "Kay" none none (some 7) none).resistance.getD 5) :=
  ⟨(npc_schema_validation_resistance (NPCPayload.mk "Zed" none none (some (-3)) none)).2.1,
   (npc_schema_validation_resistance (NPCPayload.mk "Kay" none none (some 7) none)).2.2⟩

theorem dropTake_substring (l : List Char) (i k : Nat) :
    isSubstring ((l.drop i).take k) l :=
  ⟨l.take i, (l.drop i).drop k, by
    rw [List.append_assoc, List.take_append_drop, List.take_append_drop]⟩

theorem extractScan_substring (text : List Char) :
    ∀ (l : List Char) (idx depth : Nat) (start : Option Nat) (c : List Char),
      extractScan text l idx depth start = some c → isSubstring c text := by
  intro l
  induction l with
  | nil =>
      intro idx depth start c h
      exact absurd h (by simp [extractScan])
  | cons ch rest ih =>
      intro idx depth start c h
      simp only [extractScan] at h
      by_cases h1 : ch = '{'
      · rw [if_pos h1] at h
        exact ih _ _ _ _ h
      · rw [if_neg h1] at h
        by_cases h2 : ch = '}'
        · rw [if_pos h2] at h
          by_cases h3 : depth = 0
          · rw [if_pos h3] at h
            exact ih _ _ _ _ h
          · rw [if_neg h3] at h
            by_cases h4 : depth = 1
            · rw [if_pos h4] at h
              cases start with
              | some st =>
                  have h' : (if (json_loads_chars
                        ((text.drop st).take (idx + 1 - st))).isSome = true then
                      some ((text.drop st).take (idx + 1 - st))
                    else extractScan text rest (idx + 1) (depth - 1) (some st))
                    = some c := h
                  by_cases h5 :
                    (json_loads_chars ((text.drop st).take (idx + 1 - st))).isSome = true
                  · rw [if_pos h5] at h'
                    injection h' with h6
                    exact h6 ▸ dropTake_substring text st (idx + 1 - st)
                  · rw [if_neg h5] at h'
                    exact ih _ _ _ _ h'
              | none => exact ih _ _ _ _ h
            · rw [if_neg h4] at h
              exact ih _ _ _ _ h
        · rw [if_neg h2] at h
          exact ih _ _ _ _ h

theorem extractScan_none_of_no_brace (text : List Char) :
    ∀ (l : List Char) (idx : Nat),
      (∀ ch ∈ l, ch ≠ '{') → extractScan text l idx 0 none = none := by
  intro l
  induction l with
  | nil => intro idx _; rfl
  | cons ch rest ih =>
      intro idx hno
      have ihr := ih (idx + 1) (fun c hc => hno c (List.mem_cons_of_mem _ hc))
      simp only [extractScan]
      rw [if_neg (hno ch (List.mem_cons_self _ _))]
      by_cases h2 : ch = '}'
      · rw [if_pos h2]
        simpa using ihr
      · rw [if_neg h2]
        exact ihr

theorem firstBraceIdx_none_of_no_brace :
    ∀ (l : List Char) (idx : Nat), (∀ ch ∈ l, ch ≠ '{') → firstBraceIdx l idx = none := by
  intro l
  induction l with
  | nil => intro idx _; rfl
  | cons ch rest ih =>
      intro idx hno
      rw [firstBraceIdx, if_neg (hno ch (List.mem_cons_self _ _))]
      exact ih _ (fun c hc => hno c (List.mem_cons_of_mem _ hc))

theorem regexFallbackSpan_substring (l : List Char) (c : List Char)
    (h : regexFallbackSpan l = some c) : isSubstring c l := by
  unfold regexFallbackSpan at h
  cases hf : firstBraceIdx l 0 with
  | none => simp only [hf] at h; exact Option.noConfusion h
  | some i =>
      cases hl : lastCloseIdx l 0 none with
      | none => simp only [hf, hl] at h; exact Option.noConfusion h
      | some j =>
          simp only [hf, hl] at h
          split_ifs at h
          injection h with h6
          exact h6 ▸ dropTake_substring l i (j + 1 - i)

theorem extract_first_json_substring (l c : List Char)
    (h : extract_first_json l = some c) : isSubstring c l := by
  unfold extract_first_json at h
  cases hs : extractScan l l 0 0 none with
  | some c0 =>
      rw [hs] at h
      injection h with h6
      exact h6 ▸ extractScan_substring l l 0 0 none c0 hs
  | none =>
      rw [hs] at h
      exact regexFallbackSpan_substring l c h

theorem extract_first_json_none_of_no_brace (l : List Char)
    (hno : ∀ ch ∈ l, ch ≠ '{') : extract_first_json l = none := by
  unfold extract_first_json
  rw [extractScan_none_of_no_brace l l 0 hno]
  unfold regexFallbackSpan
  rw [firstBraceIdx_none_of_no_brace l 0 hno]

/-- C3 counterexample: on the fence-free input "\x7b \x7b\x7d \x7d", the inner
substring "\x7b\x7d" is a balanced brace block that parses as JSON, and the
whole text fails direct parsing; the claim therefore demands that
`_safe_json` return the parsed substring, but the code raises instead (a
`json.JSONDecodeError` from the unparseable greedy-fallback candidate). -/
theorem safe_json_counterexample :
    strip_code_fences (pyStrip "\x7b \x7b\x7d \x7d") = "\x7b \x7b\x7d \x7d" ∧
    json_loads "\x7b \x7b\x7d \x7d" = none ∧
    isSubstring "\x7b\x7d".data "\x7b \x7b\x7d \x7d".data ∧
    isBraceBlock "\x7b\x7d".data = true ∧
    json_loads "\x7b\x7d" = some (Json.obj []) ∧
    safe_json "\x7b \x7b\x7d \x7d" = Except.error SafeJsonError.jsonDecodeError :=
  ⟨rfl, rfl, ⟨"\x7b ".data, " \x7d".data, by decide⟩, rfl, rfl, rfl⟩

/-- C3 amended: `_safe_json` strips a surrounding code fence (leaving
unfenced text unchanged) and parses the result; when that fails it scans
left to right and returns the first complete top-level brace candidate that
parses (a parseable block nested inside a failed candidate is not
recovered), falling back to the greedy first-'\x7b'-to-last-'\x7d' span; any
value it returns is the parse of a substring of the cleaned text, and when
the cleaned text contains no '\x7b' and fails direct parsing it raises. -/
theorem safe_json_amended (s : String) (v : Json) :
    (¬ (fenceChars.isPrefixOf (pyStrip s).data ∧
        fenceChars.reverse.isPrefixOf (pyStrip s).data.reverse) →
      strip_code_fences (pyStrip s) = pyStrip s) ∧
    (json_loads (strip_code_fences (pyStrip s)) = some v → safe_json s = Except.ok v) ∧
    (safe_json s = Except.ok v →
      ∃ t, isSubstring t (strip_code_fences (pyStrip s)).data ∧
        json_loads_chars t = some v) ∧
    (json_loads (strip_code_fences (pyStrip s)) = none →
      (∀ ch ∈ (strip_code_fences (pyStrip s)).data, ch ≠ '{') →
      safe_json s = Except.error (SafeJsonError.runtimeError
        "Model returned invalid JSON and no recoverable payload")) := by
  refine ⟨?_, ?_, ?_, ?_⟩
  · intro h
    unfold strip_code_fences
    rw [if_neg h]
  · intro h
    simp only [safe_json, h]
  · intro h
    simp only [safe_json] at h
    cases hj : json_loads (strip_code_fences (pyStrip s)) with
    | some w =>
        rw [hj] at h
        injection h with h6
        exact ⟨(strip_code_fences (pyStrip s)).data, ⟨[], [], by simp⟩, by
          rw [← h6]; exact hj⟩
    | none =>
        rw [hj] at h
        cases he : extract_first_json (strip_code_fences (pyStrip s)).data with
        | none =>
            rw [he] at h
            have h' : (Except.error (SafeJsonError.runtimeError
                "Model returned invalid JSON and no recoverable payload")
                : Except SafeJsonError Json) = Except.ok v := h
            exact absurd h' (by simp)
        | some extracted =>
            rw [he] at h
            have h' : (if extracted ≠ [] then
                (match json_loads_chars extracted with
                  | some w => Except.ok w
                  | none => Except.error SafeJsonError.jsonDecodeError)
                else Except.error (SafeJsonError.runtimeError
                  "Model returned invalid JSON and no recoverable payload"))
                = Except.ok v := h
            by_cases hne : extracted ≠ []
            · rw [if_pos hne] at h'
              cases hjc : json_loads_chars extracted with
              | none =>
                  rw [hjc] at h'
                  exact absurd h' (by simp)
              | some w =>
                  rw [hjc] at h'
                  injection h' with h6
                  exact ⟨extracted, extract_first_json_substring _ _ he, by
                    rw [← h6]; exact hjc⟩
            · rw [if_neg hne] at h'
              exact absurd h' (by simp)
  · intro hj hno
    have hx := extract_first_json_none_of_no_brace (strip_code_fences (pyStrip s)).data hno
    simp only [safe_json, hj, hx]

/-- Witness for the amended C3: an unfenced plain text is left unchanged by
fence-stripping, a direct JSON object is returned as parsed, and a braceless
non-JSON text raises the RuntimeError. -/
theorem safe_json_amended_witness :
    strip_code_fences (pyStrip "plain text") = pyStrip "plain text" ∧
    safe_json "\x7b\x7d" = Except.ok (Json.obj []) ∧
    safe_json "no json here" = Except.error (SafeJsonError.runtimeError
      "Model returned invalid JSON and no recoverable payload") :=
  ⟨(safe_json_amended "plain text" Json.null).1 (by decide),
   (safe_json_amended "\x7b\x7d" (Json.obj [])).2.1 rfl,
   (safe_json_amended "no json here" Json.null).2.2.2 rfl (by decide)⟩

theorem request_with_constraints_spec {α : Type} (body : Nat → Except PyExc α) :
    (request_with_constraints body).2.1 ≤ 3 ∧
    isPrefixList (request_with_constraints body).2.2 [(3 : ℚ) / 2, 3] ∧
    ((∀ i, ∃ m, body i = Except.error ⟨ExcKind.recoverable, m⟩) →
      (∃ e, (request_with_constraints body).1 = Except.error e) ∧
      (request_with_constraints body).2.1 = 3 ∧
      (request_with_constraints body).2.2 = [(3 : ℚ) / 2, 3]) := by
  rcases hb0 : body 0 with ⟨k0, m0⟩ | v0
  · cases k0 with
    | fatal =>
        refine ⟨?_, ?_, ?_⟩
        · simp [isPrefixList, request_with_constraints, requestAux, hb0]
        · simp [isPrefixList, request_with_constraints, requestAux, hb0]
        · intro hf
          obtain ⟨m, hm⟩ := hf 0
          rw [hb0] at hm
          injection hm with hm'
          exact absurd (congrArg PyExc.kind hm') (by simp)
    | recoverable =>
        rcases hb1 : body 1 with ⟨k1, m1⟩ | v1
        · cases k1 with
          | fatal =>
              refine ⟨?_, ?_, ?_⟩
              · simp [isPrefixList, request_with_constraints, requestAux, hb0, hb1]
              · simp [isPrefixList, request_with_constraints, requestAux, hb0, hb1]
              · intro hf
                obtain ⟨m, hm⟩ := hf 1
                rw [hb1] at hm
                injection hm with hm'
                exact absurd (congrArg PyExc.kind hm') (by simp)
          | recoverable =>
              rcases hb2 : body 2 with ⟨k2, m2⟩ | v2
              · cases k2 with
                | fatal =>
                    refine ⟨?_, ?_, ?_⟩
                    · simp [isPrefixList, request_with_constraints, requestAux, hb0, hb1, hb2]
                    · simp [isPrefixList, request_with_constraints, requestAux, hb0, hb1, hb2]
                      all_goals norm_num
                    · refine fun hf => ⟨⟨⟨ExcKind.fatal, m2⟩, ?_⟩, ?_, ?_⟩ <;>
                        simp [isPrefixList, request_with_constraints, requestAux, hb0, hb1, hb2]
                      all_goals norm_num
                | recoverable =>
                    refine ⟨?_, ?_, ?_⟩
                    · simp [isPrefixList, request_with_constraints, requestAux, hb0, hb1, hb2]
                    · simp [isPrefixList, request_with_constraints, requestAux, hb0, hb1, hb2]
                      all_goals norm_num
                    · refine fun hf => ⟨⟨⟨ExcKind.recoverable,
                          "Model response failed validation: " ++ m2⟩, ?_⟩, ?_, ?_⟩ <;>
                        simp [isPrefixList, request_with_constraints, requestAux, hb0, hb1, hb2]
                      all_goals norm_num
              · refine ⟨?_, ?_, ?_⟩
                · simp [isPrefixList, request_with_constraints, requestAux, hb0, hb1, hb2]
                · simp [isPrefixList, request_with_constraints, requestAux, hb0, hb1, hb2]
                  all_goals norm_num
                · intro hf
                  obtain ⟨m, hm⟩ := hf 2
                  rw [hb2] at hm
                  exact absurd hm (by simp)
        · refine ⟨?_, ?_, ?_⟩
          · simp [isPrefixList, request_with_constraints, requestAux, hb0, hb1]
          · simp [isPrefixList, request_with_constraints, requestAux, hb0, hb1]
          · intro hf
            obtain ⟨m, hm⟩ := hf 1
            rw [hb1] at hm
            exact absurd hm (by simp)
  · refine ⟨?_, ?_, ?_⟩
    · simp [isPrefixList, request_with_constraints, requestAux, hb0]
    · simp [isPrefixList, request_with_constraints, requestAux, hb0]
    · intro hf
      obtain ⟨m, hm⟩ := hf 0
      rw [hb0] at hm
      exact absurd hm (by simp)

theorem complete_spec (net : Nat → Except String String) :
    (complete net).2.1 ≤ 3 ∧
    isPrefixList (complete net).2.2 [(1 : ℚ), 2] ∧
    ((∀ i, ∃ m, net i = Except.error m) →
      (∃ e, (complete net).1 = Except.error e) ∧
      (complete net).2.1 = 3 ∧
      (complete net).2.2 = [(1 : ℚ), 2]) := by
  rcases hn0 : net 0 with e0 | v0
  · rcases hn1 : net 1 with e1 | v1
    · rcases hn2 : net 2 with e2 | v2
      · refine ⟨?_, ?_, ?_⟩
        · simp [isPrefixList, complete, completeAux, hn0, hn1, hn2]
        · simp [isPrefixList, complete, completeAux, hn0, hn1, hn2]
        · refine fun hf => ⟨⟨⟨ExcKind.recoverable, "GPT request failed: " ++ e2⟩, ?_⟩,
            ?_, ?_⟩ <;>
            simp [isPrefixList, complete, completeAux, hn0, hn1, hn2]
      · refine ⟨?_, ?_, ?_⟩
        · simp [isPrefixList, complete, completeAux, hn0, hn1, hn2]
        · simp [isPrefixList, complete, completeAux, hn0, hn1, hn2]
        · intro hf
          obtain ⟨m, hm⟩ := hf 2
          rw [hn2] at hm
          exact absurd hm (by simp)
    · refine ⟨?_, ?_, ?_⟩
      · simp [isPrefixList, complete, completeAux, hn0, hn1]
      · simp [isPrefixList, complete, completeAux, hn0, hn1]
      · intro hf
        obtain ⟨m, hm⟩ := hf 1
        rw [hn1] at hm
        exact absurd hm (by simp)
  · refine ⟨?_, ?_, ?_⟩
    · simp [isPrefixList, complete, completeAux, hn0]
    · simp [isPrefixList, complete, completeAux, hn0]
    · intro hf
      obtain ⟨m, hm⟩ := hf 0
      rw [hn0] at hm
      exact absurd hm (by simp)

/-- C4: both retry loops make at most 3 attempts, the sleeps between
attempts double (1.5 then 3.0 seconds for validation retries, 1.0 then 2.0
for request retries), and when every attempt fails the operation raises an
error after the third attempt instead of retrying further. -/
theorem model_validation_retries_bounded {α : Type} (body : Nat → Except PyExc α)
    (net : Nat → Except String String) :
    (request_with_constraints body).2.1 ≤ 3 ∧
    isPrefixList (request_with_constraints body).2.2 [(3 : ℚ) / 2, 3] ∧
    ((∀ i, ∃ m, body i = Except.error ⟨ExcKind.recoverable, m⟩) →
      (∃ e, (request_with_constraints body).1 = Except.error e) ∧
      (request_with_constraints body).2.1 = 3 ∧
      (request_with_constraints body).2.2 = [(3 : ℚ) / 2, 3]) ∧
    (complete net).2.1 ≤ 3 ∧
    isPrefixList (complete net).2.2 [(1 : ℚ), 2] ∧
    ((∀ i, ∃ m, net i = Except.error m) →
      (∃ e, (complete net).1 = Except.error e) ∧
      (complete net).2.1 = 3 ∧
      (complete net).2.2 = [(1 : ℚ), 2]) :=
  ⟨(request_with_constraints_spec body).1, (request_with_constraints_spec body).2.1,
   (request_with_constraints_spec body).2.2, (complete_spec net).1,
   (complete_spec net).2.1, (complete_spec net).2.2⟩

/-- Witness for C4: with every attempt failing, both loops stop at exactly 3
attempts, slept 1.5 s then 3.0 s (resp. 1.0 s then 2.0 s), and raised. -/
theorem model_validation_retries_bounded_witness :
    (∃ e, (request_with_constraints failBody).1 = Except.error e) ∧
    (request_with_constraints failBody).2.1 = 3 ∧
    (request_with_constraints failBody).2.2 = [(3 : ℚ) / 2, 3] ∧
    (∃ e, (complete failNet).1 = Except.error e) ∧
    (complete failNet).2.1 = 3 ∧
    (complete failNet).2.2 = [(1 : ℚ), 2] :=
  have h := model_validation_retries_bounded failBody failNet
  have hreq := h.2.2.1 (fun _ => ⟨"invalid payload", rfl⟩)
  have hnet := h.2.2.2.2.2 (fun _ => ⟨"connection reset", rfl⟩)
  ⟨hreq.1, hreq.2.1, hreq.2.2, hnet.1, hnet.2.1, hnet.2.2⟩

/-- C5: a played turn that fails with a non-recoverable error surfaces a
user-visible error message, leaves the whole game state unchanged, and
stores the player's message for retry; a retry command with no stored
message reports an error, changes nothing, and plays no turn. -/
theorem failed_turn_preserves_state (c : ControllerState) (raw e : String)
    (plan : Except String TurnResolutionSchema)
    (hne : raw ≠ "") (hq : pyLower raw ≠ "quit") (hl : pyLower raw ≠ "log")
    (hr : pyLower raw ≠ "retry") (herr : plan = Except.error e) :
    (loop_iteration c raw plan).1.state = c.state ∧
    (loop_iteration c raw plan).1.retry_message = some raw ∧
    ViewEvent.errorMsg ("Encounter failed due to an error: " ++ e)
      ∈ (loop_iteration c raw plan).2.1 ∧
    (loop_iteration c raw plan).2.2.1 = LoopExit.continueLoop ∧
    (∀ (c2 : ControllerState) (raw2 : String)
        (plan2 : Except String TurnResolutionSchema),
      c2.retry_message = none → pyLower raw2 = "retry" →
      (loop_iteration c2 raw2 plan2).1 = c2 ∧
      ViewEvent.errorMsg "No turn available to retry."
        ∈ (loop_iteration c2 raw2 plan2).2.1 ∧
      (loop_iteration c2 raw2 plan2).2.2.1 = LoopExit.continueLoop ∧
      (loop_iteration c2 raw2 plan2).2.2.2 = 0) := by
  have hmain : loop_iteration c raw plan =
      (⟨c.state, some raw⟩,
        (if c.retry_message.isSome then [ViewEvent.retryAvailable] else []) ++
          [ViewEvent.errorMsg ("Encounter failed due to an error: " ++ e)],
        LoopExit.continueLoop, 1) := by
    unfold loop_iteration
    rw [if_neg hq, if_neg hne, if_neg hl, if_neg hr, herr]
  refine ⟨by rw [hmain], by rw [hmain], by rw [hmain]; simp, by rw [hmain], ?_⟩
  intro c2 raw2 plan2 hrm hretry
  have hne2 : raw2 ≠ "" := by
    intro hx
    rw [hx] at hretry
    exact absurd hretry (by decide)
  have hq2 : pyLower raw2 ≠ "quit" := by rw [hretry]; decide
  have hl2 : pyLower raw2 ≠ "log" := by rw [hretry]; decide
  have h2 : loop_iteration c2 raw2 plan2 =
      (c2, (if c2.retry_message.isSome then [ViewEvent.retryAvailable] else []) ++
        [ViewEvent.errorMsg "No turn available to retry."],
        LoopExit.continueLoop, 0) := by
    unfold loop_iteration
    rw [if_neg hq2, if_neg hne2, if_neg hl2, if_pos hretry, hrm]
  exact ⟨by rw [h2], by rw [h2]; simp, by rw [h2], by rw [h2]⟩

/-- Witness for C5: a failing turn on a concrete state stores "Hi there"
for retry and leaves the state intact; a retry with nothing stored only
reports the error. -/
theorem failed_turn_preserves_state_witness :
    (loop_iteration ⟨sampleState, none⟩ "Hi there" (Except.error "boom")).1.state
        = sampleState ∧
    (loop_iteration ⟨sampleState, none⟩ "Hi there" (Except.error "boom")).1.retry_message
        = some "Hi there" ∧
    ViewEvent.errorMsg ("Encounter failed due to an error: " ++ "boom")
      ∈ (loop_iteration ⟨sampleState, none⟩ "Hi there" (Except.error "boom")).2.1 ∧
    (loop_iteration ⟨sampleState, none⟩ "Hi there" (Except.error "boom")).2.2.1
        = LoopExit.continueLoop ∧
    (∀ (c2 : ControllerState) (raw2 : String)
        (plan2 : Except String TurnResolutionSchema),
      c2.retry_message = none → pyLower raw2 = "retry" →
      (loop_iteration c2 raw2 plan2).1 = c2 ∧
      ViewEvent.errorMsg "No turn available to retry."
        ∈ (loop_iteration c2 raw2 plan2).2.1 ∧
      (loop_iteration c2 raw2 plan2).2.2.1 = LoopExit.continueLoop ∧
      (loop_iteration c2 raw2 plan2).2.2.2 = 0) :=
  failed_turn_preserves_state ⟨sampleState, none⟩ "Hi there" "boom" (Except.error "boom")
    (by decide) (by decide) (by decide) (by decide) rfl

end RPG
